import Mathlib

/-!
A verification development for the sort (type) representation and interning
subsystem of pySMT (`pysmt/typing.py`).

The Python classes `PySMTType`, `_BoolType`, `_IntType`, `_RealType`,
`_BVType`, `_ArrayType`, `_FunctionType` are modelled by one inductive type
`PyType`; the `TypeManager` with its five cache dictionaries is modelled by
an explicit state record threaded through the factory operations.  Python
object identity is modelled by a numeric `id` carried by every allocated
value: the factories hand out fresh ids from an allocation counter, so two
values are the same Python object exactly when they are equal as `PyType`
values.  Python `==` (which the cache dictionaries use for key lookup) is
the separate, variant-aware relation `pyEq` below.  `PysmtValueError` is
modelled by `Except` with a structured error type.
-/

/-- Model of a pySMT sort value.  `bool`, `int`, `real` stand for the
process-wide singletons `BOOL`, `INT`, `REAL` (class `_BoolType` etc.;
their payload is fixed, so they need no identity field).  `bv` models
`_BVType` (payload: the width), `array` models `_ArrayType` (payload:
index and element type), `fn` models `_FunctionType` (payload: return
type and parameter tuple), and `custom` models a plain `PySMTType`
produced by `TypeManager.get_type_instance` (payload: the declaration
name used as `basename` — `None` is possible, hence `Option String` —
and the argument tuple).  The `id` field models Python object identity. -/
inductive PyType where
  | bool
  | int
  | real
  | bv (id : Nat) (width : Nat)
  | array (id : Nat) (index_type : PyType) (elem_type : PyType)
  | fn (id : Nat) (return_type : PyType) (param_types : List PyType)
  | custom (id : Nat) (basename : Option String) (args : List PyType)

/-- The `basename` attribute set by `PySMTType.__init__` (and the
subclasses' calls to it): `"Bool"`, `"Int"`, `"Real"`, `"BV{width}"`,
`"Array"`, `None` for `_FunctionType`, and the declaration name for a
custom instance. -/
def PyType.basenameAttr : PyType → Option String
  | .bool => some "Bool"
  | .int => some "Int"
  | .real => some "Real"
  | .bv _ w => some ("BV\x7b" ++ toString w ++ "\x7d")
  | .array _ _ _ => some "Array"
  | .fn _ _ _ => none
  | .custom _ n _ => n

/-- The `args` attribute: `None` for the basic types and `_BVType`
(modelled as `[]` here, which the code below never iterates for them),
`(index_type, elem_type)` for `_ArrayType`, `(return_type,) + param_types`
for `_FunctionType` (set at the end of `_FunctionType.__init__`), and the
argument tuple for a custom instance. -/
def PyType.argsAttr : PyType → List PyType
  | .bool | .int | .real | .bv _ _ => []
  | .array _ i e => [i, e]
  | .fn _ r ps => r :: ps
  | .custom _ _ args => args

/-- The `arity` attribute: `len(args) if args else 0` in
`PySMTType.__init__`, overridden to `len((return_type,) + param_types)`
for `_FunctionType`. -/
def PyType.arityAttr : PyType → Nat
  | .bool | .int | .real | .bv _ _ => 0
  | .array _ _ _ => 2
  | .fn _ _ ps => 1 + ps.length
  | .custom _ _ args => args.length

/-- Predicate `is_bv_type()` with no width argument. -/
def PyType.is_bv_type : PyType → Bool
  | .bv _ _ => true
  | _ => false

/-- Predicate `is_array_type()`. -/
def PyType.is_array_type : PyType → Bool
  | .array _ _ _ => true
  | _ => false

/-- Predicate `is_function_type()`. -/
def PyType.is_function_type : PyType → Bool
  | .fn _ _ _ => true
  | _ => false

/-- The `width` property of `_BVType` (0 elsewhere; Python would raise
`AttributeError`, and the code below only reads it after `is_bv_type()`). -/
def PyType.widthAttr : PyType → Nat
  | .bv _ w => w
  | _ => 0

mutual
/-- Python `==` on sort values, i.e. the net effect of `PySMTType.__eq__`
combined with the overrides `_BVType.__eq__` and `_FunctionType.__eq__`
(CPython dispatches to the subclass method first where one overrides
`__eq__`; both overrides return `True`/`False`, never `NotImplemented`).

`PySMTType.__eq__` compares `basename` and then the `args` attribute
(`None == ()` is false, so a basic type never equals an argument-less
custom instance even under the same basename, and the distinct basename
string literals `"Bool"`, `"Int"`, `"Real"`, `"BV{w}"`, `"Array"` make the
remaining cross-variant comparisons false).  The one cross-variant case
that can succeed is a custom instance whose declaration was named
`"Array"` compared with an `_ArrayType` with `==`-equal arguments: both
have `basename == "Array"` and a 2-tuple `args`.  `_BVType.__eq__`
compares widths only, and `_FunctionType.__eq__` compares the return type
and the parameter tuple.  Object ids never enter the comparison. -/
def pyEq : PyType → PyType → Bool
  | .bool, .bool => true
  | .int, .int => true
  | .real, .real => true
  | .bv _ w, .bv _ w' => w == w'
  | .array _ i e, .array _ i' e' => pyEq i i' && pyEq e e'
  | .array _ i e, .custom _ n' args' =>
      (some "Array" == n') && (match args' with
        | [a, b] => pyEq i a && pyEq e b
        | _ => false)
  | .custom _ n args, .array _ i' e' =>
      (n == some "Array") && (match args with
        | [a, b] => pyEq a i' && pyEq b e'
        | _ => false)
  | .fn _ r ps, .fn _ r' ps' => pyEq r r' && pyEqList ps ps'
  | .custom _ n args, .custom _ n' args' => (n == n') && pyEqList args args'
  | _, _ => false

/-- Python `==` on tuples of sort values: pointwise with matching length. -/
def pyEqList : List PyType → List PyType → Bool
  | [], [] => true
  | x :: xs, y :: ys => pyEq x y && pyEqList xs ys
  | _, _ => false
end

mutual
/-- Python `str()` of a sort value.  For every variant except
`_FunctionType` this is the `name` attribute computed in
`PySMTType.__init__`: the basename followed, when the `args` tuple is
non-empty, by a brace-delimited comma-joined rendering of the arguments.
`_FunctionType.__str__` renders `param -> ... -> return`.  (`str()` of a
custom instance whose basename is `None` would raise in Python; it is
modelled as `""` and is never reached by the operations below.) -/
def pyStr : PyType → String
  | .bool => "Bool"
  | .int => "Int"
  | .real => "Real"
  | .bv _ w => "BV\x7b" ++ toString w ++ "\x7d"
  | .array _ i e => "Array\x7b" ++ pyStr i ++ ", " ++ pyStr e ++ "\x7d"
  | .fn _ r ps => String.intercalate " -> " (pyStrList ps ++ [pyStr r])
  | .custom _ none _ => ""
  | .custom _ (some n) args =>
      if args.isEmpty then n
      else n ++ "\x7b" ++ String.intercalate ", " (pyStrList args) ++ "\x7d"

/-- Python `str()` of each element of a tuple of sort values. -/
def pyStrList : List PyType → List String
  | [] => []
  | x :: xs => pyStr x :: pyStrList xs
end

/-- The `name` attribute from `PySMTType.__init__`: `None` when the
basename is `None` (so for `_FunctionType` and `None`-named custom
instances), otherwise the basename plus the brace-delimited argument
rendering when the `args` tuple is non-empty. -/
def pyName : PyType → Option String
  | .bool => some "Bool"
  | .int => some "Int"
  | .real => some "Real"
  | .bv _ w => some ("BV\x7b" ++ toString w ++ "\x7d")
  | .array _ i e => some ("Array\x7b" ++ pyStr i ++ ", " ++ pyStr e ++ "\x7d")
  | .fn _ _ _ => none
  | .custom _ none _ => none
  | .custom _ (some n) args =>
      if args.isEmpty then some n
      else some (n ++ "\x7b" ++ String.intercalate ", " (pyStrList args) ++ "\x7d")

/-- Model of CPython's string hash: any fixed function of the string
contents works, since the code only ever feeds hashes into dictionaries
and equality comparisons. -/
def strHash (s : String) : Int := Int.ofNat s.hash.toNat

/-- Model of `hash(name)` where `name` may be `None` (hash of `None` is some fixed
process constant, modelled as 0). -/
def strHashOpt : Option String → Int
  | none => 0
  | some s => strHash s

mutual
/-- Python `hash()` of a sort value: `PySMTType.__hash__` is
`hash(self.name)`; `_BVType.__hash__` is `hash(self.width)` (Python's
`hash` on a small non-negative int is the int itself); and
`_FunctionType.__hash__` is `hash(return_type) + sum(hash(p) for p in
param_types)`, precomputed in `_FunctionType.__init__`. -/
def pyHash : PyType → Int
  | .bv _ w => Int.ofNat w
  | .fn _ r ps => pyHash r + pyHashSum ps
  | t => strHashOpt (pyName t)

/-- Model of `sum(hash(p) for p in param_types)`. -/
def pyHashSum : List PyType → Int
  | [] => 0
  | x :: xs => pyHash x + pyHashSum xs
end

mutual
/-- Model of `as_smtlib(funstyle)`.  `PySMTType.as_smtlib` renders `name`, wrapping
compound sorts as `"(" + basename + " " + args + ")"` with the arguments
rendered with `funstyle=False`, and prefixes `"() "` when `funstyle` is
set.  `_BVType.as_smtlib` renders `(_ BitVec w)` and `_FunctionType.as_smtlib`
renders `"(params) return"` in funstyle and `"p1 -> ... -> return"`
otherwise, both with sub-sorts rendered with `funstyle=False`. -/
def as_smtlib : PyType → Bool → String
  | .bv _ w, funstyle =>
      if funstyle then "() (_ BitVec " ++ toString w ++ ")"
      else "(_ BitVec " ++ toString w ++ ")"
  | .fn _ r ps, funstyle =>
      let args := asSmtlibList ps
      let rtype := as_smtlib r false
      if funstyle then "(" ++ String.intercalate " " args ++ ") " ++ rtype
      else String.intercalate " -> " (args ++ [rtype])
  | .array _ i e, funstyle =>
      let name := "(Array " ++ as_smtlib i false ++ " " ++ as_smtlib e false ++ ")"
      if funstyle then "() " ++ name else name
  | .custom _ n args, funstyle =>
      let name :=
        if args.isEmpty then (n.getD "")
        else "(" ++ (n.getD "") ++ " " ++ String.intercalate " " (asSmtlibList args) ++ ")"
      if funstyle then "() " ++ name else name
  | t, funstyle =>
      let name := ((pyName t).getD "")
      if funstyle then "() " ++ name else name

/-- The arguments of a compound sort rendered with `funstyle=False`. -/
def asSmtlibList : List PyType → List String
  | [] => []
  | x :: xs => as_smtlib x false :: asSmtlibList xs
end

/-- Model of `_TypeDecl`: a named, fixed-arity sort declaration.  The
`id` field models Python object identity (the custom-instance cache of a
manager is keyed by declaration identity, since `_TypeDecl` inherits
`object.__eq__`/`__hash__`).  The back reference to the owning manager is
omitted: `_TypeDecl.__call__` just forwards to that manager's
`get_type_instance`, which is modelled as a direct state function. -/
structure TypeDecl where
  id : Nat
  name : Option String
  arity : Nat
deriving DecidableEq

/-- What `TypeManager.Type` returns: a type (for zero-arity declarations,
which are instantiated on the spot) or the declaration object itself. -/
inductive TypeResult where
  | sort (t : PyType)
  | decl (d : TypeDecl)

/-- Structured model of the `PysmtValueError`s raised by `typing.py`,
plus bookkeeping variants that are artifacts of the embedding. -/
inductive PysmtError where
  /-- `"Type %s previously declared with arity %d."` in `TypeManager.Type`. -/
  | arityConflict (name : Option String) (prevArity : Nat)
  /-- `"Trying to instantiate %s with non-type args."` in
  `TypeManager.get_type_instance`. -/
  | nonTypeArgs (declName : Option String)
  /-- A Python `KeyError` on a `typemap[...]` access in `normalize`
  (unreachable on the runs performed below). -/
  | keyError
  /-- A branch that the source cannot reach but the total model must name
  (e.g. `TypeManager.Type` called with arity 0 returning a declaration). -/
  | modelUnreachable
  /-- The iteration bound of the embedded `while` loop ran out; the bound
  used below is large enough that this never occurs on the runs performed. -/
  | fuelExhausted
deriving DecidableEq

/-- A Python value passed as one element of the `*args` of
`get_type_instance`: either a sort value, or anything else
(`nonType` — in particular the generator object that `normalize`'s custom
branch passes; the payload records the list the generator would yield, but
is never inspected because `isinstance(..., PySMTType)` fails first). -/
inductive PyArg where
  | ofType (t : PyType)
  | nonType (payload : List PyType)

/-- Check `isinstance(t, PySMTType)`. -/
def isTypeInst : PyArg → Bool
  | .ofType _ => true
  | .nonType _ => false

/-- The sort values of an argument list all of whose elements passed the
`isinstance` check. -/
def argTypes : List PyArg → List PyType
  | [] => []
  | .ofType t :: rest => t :: argTypes rest
  | .nonType _ :: rest => argTypes rest

/-- The five cache dictionaries of a `TypeManager` (`__init__`), modelled
as association lists: an assignment `d[k] = v` on a missed key conses a
new entry, and every lookup compares keys the way the corresponding
Python dictionary does (`pyEq` for sort-valued keys, declaration identity
for `_TypeDecl` keys, plain equality for widths and names). -/
structure TypeManager where
  bv_types : List (Nat × PyType)
  function_types : List ((PyType × List PyType) × PyType)
  array_types : List ((PyType × PyType) × PyType)
  custom_types : List ((Nat × List PyType) × PyType)
  custom_types_decl : List (Option String × TypeDecl)

/-- A manager together with the process-wide allocation counter that
hands out fresh Python object identities. -/
structure MgrState where
  mgr : TypeManager
  next : Nat

/-- Lookup `self._bv_types[width]`. -/
def lookupBVCache : List (Nat × PyType) → Nat → Option PyType
  | [], _ => none
  | (w, v) :: rest, q => if w = q then some v else lookupBVCache rest q

/-- Lookup `self._function_types[key]`, `key = (return_type, param_types)`;
the dictionary compares tuple keys elementwise with `==`. -/
def lookupFnCache : List ((PyType × List PyType) × PyType) →
    PyType × List PyType → Option PyType
  | [], _ => none
  | ((r, ps), v) :: rest, q =>
      if pyEq r q.1 && pyEqList ps q.2 then some v else lookupFnCache rest q

/-- Lookup `self._array_types[key]`, `key = (index_type, elem_type)`. -/
def lookupArrCache : List ((PyType × PyType) × PyType) →
    PyType × PyType → Option PyType
  | [], _ => none
  | ((i, e), v) :: rest, q =>
      if pyEq i q.1 && pyEq e q.2 then some v else lookupArrCache rest q

/-- Lookup `self._custom_types[key]`, `key = (type_decl, tuple(args))`;
the declaration compares by object identity, the argument tuple by `==`. -/
def lookupCustomCache : List ((Nat × List PyType) × PyType) →
    Nat × List PyType → Option PyType
  | [], _ => none
  | ((i, xs), v) :: rest, q =>
      if i = q.1 && pyEqList xs q.2 then some v else lookupCustomCache rest q

/-- Lookup `self._custom_types_decl[name]`. -/
def lookupDecl : List (Option String × TypeDecl) → Option String → Option TypeDecl
  | [], _ => none
  | (n, d) :: rest, q => if n = q then some d else lookupDecl rest q

/-- The process-wide constants `BV1, BV8, BV16, BV32, BV64, BV128 =
[_BVType(i) for i in [1, 8, 16, 32, 64, 128]]` (allocation ids 0-5) and
`ARRAY_INT_INT = _ArrayType(INT, INT)` (id 6).  `BOOL`, `INT`, `REAL` are
the singleton constructors of `PyType` and consume no ids here. -/
def BV1 : PyType := .bv 0 1
def BV8 : PyType := .bv 1 8
def BV16 : PyType := .bv 2 16
def BV32 : PyType := .bv 3 32
def BV64 : PyType := .bv 4 64
def BV128 : PyType := .bv 5 128
def ARRAY_INT_INT : PyType := .array 6 .int .int

/-- Model of `TypeManager.load_global_types`: register the common bit-vector
widths and the `(Int, Int)` array constant in a manager's caches. -/
def load_global_types (m : TypeManager) : TypeManager :=
  { m with
    bv_types := [(1, BV1), (8, BV8), (16, BV16), (32, BV32), (64, BV64), (128, BV128)],
    array_types := [((PyType.int, PyType.int), ARRAY_INT_INT)] }

/-- Model of `TypeManager.__init__`: five empty caches, then `load_global_types`.
The parameter is the value of the process allocation counter at the
moment the manager is created (7 for a manager created right after the
module-level constants). -/
def newMgr (next : Nat) : MgrState :=
  { mgr := load_global_types ⟨[], [], [], [], []⟩, next := next }

/-- A manager created right after module load: ids 0-6 are taken by the
global constants. -/
def freshMgr : MgrState := newMgr 7

/-- Model of `TypeManager.BVType(width)`: get-or-create the bit-vector sort of the
given width (`_BVType(width=width)` on a miss). -/
def BVType (width : Nat) (s : MgrState) : PyType × MgrState :=
  match lookupBVCache s.mgr.bv_types width with
  | some ty => (ty, s)
  | none =>
      (PyType.bv s.next width,
       ⟨{ s.mgr with bv_types := (width, PyType.bv s.next width) :: s.mgr.bv_types },
        s.next + 1⟩)

/-- Model of `TypeManager.FunctionType(return_type, param_types)`: if the
parameter tuple is empty, return `return_type` itself (a 0-arity function
type is equivalent to its return type) without touching any cache;
otherwise get-or-create keyed by `(return_type, param_types)`. -/
def FunctionType (return_type : PyType) (param_types : List PyType)
    (s : MgrState) : PyType × MgrState :=
  match param_types with
  | [] => (return_type, s)
  | _ :: _ =>
      match lookupFnCache s.mgr.function_types (return_type, param_types) with
      | some ty => (ty, s)
      | none =>
          (PyType.fn s.next return_type param_types,
           ⟨{ s.mgr with
              function_types :=
                ((return_type, param_types), PyType.fn s.next return_type param_types)
                  :: s.mgr.function_types },
            s.next + 1⟩)

/-- Model of `TypeManager.ArrayType(index_type, elem_type)`: get-or-create keyed
by the pair. -/
def ArrayType (index_type elem_type : PyType) (s : MgrState) : PyType × MgrState :=
  match lookupArrCache s.mgr.array_types (index_type, elem_type) with
  | some ty => (ty, s)
  | none =>
      (PyType.array s.next index_type elem_type,
       ⟨{ s.mgr with
          array_types := ((index_type, elem_type),
            PyType.array s.next index_type elem_type) :: s.mgr.array_types },
        s.next + 1⟩)

/-- Model of `TypeManager.get_type_instance(type_decl, *args)`: raise unless every
argument is a `PySMTType` (leaving the state untouched), then
get-or-create the custom instance `PySMTType(basename=type_decl.name,
args=args)` keyed by `(type_decl, tuple(args))`.  The raised error carries
the declaration's name, standing in for `str(type_decl)` in the Python
message. -/
def get_type_instance (type_decl : TypeDecl) (args : List PyArg)
    (s : MgrState) : Except PysmtError PyType × MgrState :=
  if args.all isTypeInst then
    match lookupCustomCache s.mgr.custom_types (type_decl.id, argTypes args) with
    | some ty => (.ok ty, s)
    | none =>
        (.ok (PyType.custom s.next type_decl.name (argTypes args)),
         ⟨{ s.mgr with
            custom_types := ((type_decl.id, argTypes args),
              PyType.custom s.next type_decl.name (argTypes args))
                :: s.mgr.custom_types },
          s.next + 1⟩)
  else (.error (.nonTypeArgs type_decl.name), s)

/-- Bookkeeping for `TypeManager.Type`: package the outcome of the
`get_type_instance` call on a zero-arity declaration as a `TypeResult`
(Python just returns the instance; the sum type records that a sort, not
a declaration, came back), propagating an error unchanged. -/
def wrapSort (p : Except PysmtError PyType × MgrState) :
    Except PysmtError TypeResult × MgrState :=
  match p with
  | (.ok ty, s₁) => (.ok (.sort ty), s₁)
  | (.error e, s₁) => (.error e, s₁)

/-- Model of `TypeManager.Type(name, arity)` (named `Type'` because `Type` is
reserved in Lean): fetch the declaration registered under `name`,
raising the arity-conflict error when the stored arity differs from the
requested one (before any mutation), or create and register a fresh
declaration when the name is new.  A declaration whose arity is 0 is
instantiated immediately via `get_type_instance`. -/
def Type' (name : Option String) (arity : Nat) (s : MgrState) :
    Except PysmtError TypeResult × MgrState :=
  match lookupDecl s.mgr.custom_types_decl name with
  | some td =>
      if td.arity = arity then
        if td.arity = 0 then wrapSort (get_type_instance td [] s)
        else (.ok (.decl td), s)
      else (.error (.arityConflict name td.arity), s)
  | none =>
      if arity = 0 then
        wrapSort (get_type_instance ⟨s.next, name, arity⟩ []
          ⟨{ s.mgr with custom_types_decl :=
               (name, (⟨s.next, name, arity⟩ : TypeDecl)) :: s.mgr.custom_types_decl },
           s.next + 1⟩)
      else
        (.ok (.decl ⟨s.next, name, arity⟩),
         ⟨{ s.mgr with custom_types_decl :=
              (name, (⟨s.next, name, arity⟩ : TypeDecl)) :: s.mgr.custom_types_decl },
          s.next + 1⟩)

mutual
/-- Number of nodes of a sort tree, used only to size the iteration
budget given to the embedded `while` loop of `normalize`. -/
def sizeP : PyType → Nat
  | .bool | .int | .real | .bv _ _ => 1
  | .array _ i e => 1 + sizeP i + sizeP e
  | .fn _ r ps => 1 + sizeP r + sizePList ps
  | .custom _ _ args => 1 + sizePList args

/-- Total node count of a list of sort trees. -/
def sizePList : List PyType → Nat
  | [] => 0
  | x :: xs => sizeP x + sizePList xs
end

/-- Lookup `typemap[ty]`: the memo dictionary of `normalize` is keyed by
sort values, i.e. by `pyEq`/`pyHash`. -/
def lookupTm : List (PyType × PyType) → PyType → Option PyType
  | [], _ => none
  | (k, v) :: rest, q => if pyEq k q then some v else lookupTm rest q

/-- Assignment `typemap[ty] = myty`: dictionary update — an entry with an `==`-equal
key is overwritten in place (keeping the original key object), otherwise
a new entry is appended. -/
def tmInsert : List (PyType × PyType) → PyType → PyType → List (PyType × PyType)
  | [], k, v => [(k, v)]
  | (k', v') :: rest, k, v =>
      if pyEq k' k then (k', v) :: rest else (k', v') :: tmInsert rest k v

/-- Evaluation of `typemap[a] for a in ...`: look every element up, `none` on any miss
(a Python `KeyError`). -/
def lookupTmList : List (PyType × PyType) → List PyType → Option (List PyType)
  | _, [] => some []
  | tm, x :: xs =>
      match lookupTm tm x, lookupTmList tm xs with
      | some v, some vs => some (v :: vs)
      | _, _ => none

/-- The comprehension `[subtype for subtype in ty.args if subtype not in typemap]`. -/
def missingOf (tm : List (PyType × PyType)) (args : List PyType) : List PyType :=
  args.filter (fun sub => (lookupTm tm sub).isNone)

/-- One execution of the `while stack:` loop of `TypeManager.normalize`,
structurally recursive on an iteration budget (`fuelExhausted` is never
reached for a sufficient budget; `normalize` below supplies one).

The Python list used as the stack keeps its top at the end; here the top
is the head, so `stack.append(ty); stack += missing` becomes
`missing.reverse ++ ty :: rest`.

Branches, in source order:
* arity 0: basic types map to themselves, `_BVType` goes through
  `self.BVType(ty.width)`, and anything else (a 0-ary custom instance)
  through `self.Type(ty.basename, arity=0)` — whose result is always a
  sort, never a declaration, for arity 0 (hence the `modelUnreachable`
  arm), and whose arity-conflict error propagates;
* arity > 0 with some argument not yet memoized: push `ty` back followed
  by the missing arguments;
* arity > 0 with all arguments memoized: arrays and functions are rebuilt
  through `self.ArrayType`/`self.FunctionType` on the memoized images.
  The remaining (custom) branch reproduces the source faithfully,
  including its two slips: it consults `type_` — the root of the whole
  traversal — instead of `ty` (`self.Type(type_.basename, type_.arity)`,
  `type_.args`), and it passes the generator `(typemap[a] for a in
  type_.args)` to `get_type_instance` as a single positional argument, so
  the `isinstance` check there fails and `PysmtValueError` is raised
  whenever this branch runs.  (`type_.arity` is never 0 when the branch
  runs — the root contains the popped arity>0 node — so `self.Type`
  returns a declaration or raises; the `modelUnreachable` arm covers the
  impossible sort result.) -/
def normalizeLoop (type_ : PyType) : Nat → List PyType →
    List (PyType × PyType) → MgrState →
    Except PysmtError (List (PyType × PyType)) × MgrState
  | 0, _, _, s => (.error .fuelExhausted, s)
  | _ + 1, [], tm, s => (.ok tm, s)
  | fuel + 1, ty :: rest, tm, s =>
    match ty with
    | .bool => normalizeLoop type_ fuel rest (tmInsert tm ty ty) s
    | .int => normalizeLoop type_ fuel rest (tmInsert tm ty ty) s
    | .real => normalizeLoop type_ fuel rest (tmInsert tm ty ty) s
    | .bv _ w =>
        let p := BVType w s
        normalizeLoop type_ fuel rest (tmInsert tm ty p.1) p.2
    | .custom _ nm [] =>
        match Type' nm 0 s with
        | (.ok (.sort myty), s₁) =>
            normalizeLoop type_ fuel rest (tmInsert tm ty myty) s₁
        | (.ok (.decl _), s₁) => (.error .modelUnreachable, s₁)
        | (.error e, s₁) => (.error e, s₁)
    | .array _ i e =>
        let missing := missingOf tm [i, e]
        if missing.isEmpty then
          match lookupTm tm i, lookupTm tm e with
          | some i', some e' =>
              let p := ArrayType i' e' s
              normalizeLoop type_ fuel rest (tmInsert tm ty p.1) p.2
          | _, _ => (.error .keyError, s)
        else normalizeLoop type_ fuel (missing.reverse ++ ty :: rest) tm s
    | .fn _ r ps =>
        let missing := missingOf tm (r :: ps)
        if missing.isEmpty then
          match lookupTm tm r, lookupTmList tm ps with
          | some r', some ps' =>
              let p := FunctionType r' ps' s
              normalizeLoop type_ fuel rest (tmInsert tm ty p.1) p.2
          | _, _ => (.error .keyError, s)
        else normalizeLoop type_ fuel (missing.reverse ++ ty :: rest) tm s
    | .custom _ _ (a :: args) =>
        let missing := missingOf tm (a :: args)
        if missing.isEmpty then
          match Type' type_.basenameAttr type_.arityAttr s with
          | (.ok (.decl td), s₁) =>
              match get_type_instance td [.nonType type_.argsAttr] s₁ with
              | (.ok myty, s₂) =>
                  normalizeLoop type_ fuel rest (tmInsert tm ty myty) s₂
              | (.error e, s₂) => (.error e, s₂)
          | (.ok (.sort _), s₁) => (.error .modelUnreachable, s₁)
          | (.error e, s₁) => (.error e, s₁)
        else normalizeLoop type_ fuel (missing.reverse ++ ty :: rest) tm s

/-- Model of `TypeManager.normalize(type_)` (named `normalize'` because Mathlib
already declares a root-level `normalize`): run the worklist loop
starting from `[type_]` with an empty memo, then return
`typemap[type_]`.  The iteration budget `(sizeP type_ + 2)^2`
comfortably covers every run performed in this development (each node is
pushed at most once per occurrence and popped at most twice). -/
def normalize' (type_ : PyType) (s : MgrState) :
    Except PysmtError PyType × MgrState :=
  match normalizeLoop type_ ((sizeP type_ + 2) * (sizeP type_ + 2)) [type_] [] s with
  | (.ok tm, s') =>
      match lookupTm tm type_ with
      | some r => (.ok r, s')
      | none => (.error .keyError, s')
  | (.error e, s') => (.error e, s')


/-- The declaration produced by `m.Type("S", 1)` on a freshly created
manager (allocation ids 0-6 are taken by the module-level constants). -/
def c1_decl : TypeDecl := ⟨7, some "S", 1⟩

/-- Manager state after `m.Type("S", 1)` on a fresh manager. -/
def c1_s1 : MgrState := (Type' (some "S") 1 freshMgr).2

/-- The canonical custom instance `S(Int)` of that manager. -/
def c1_inst : PyType := .custom 8 (some "S") [.int]

/-- Manager state after additionally instantiating `S(Int)`. -/
def c1_s2 : MgrState := (get_type_instance c1_decl [.ofType .int] c1_s1).2

/-- The declaration produced by `m.Type("Array", 2)` on a fresh manager. -/
def c2_decl : TypeDecl := ⟨7, some "Array", 2⟩

/-- Manager state after `m.Type("Array", 2)` on a fresh manager. -/
def c2_s1 : MgrState := (Type' (some "Array") 2 freshMgr).2

/-- The custom instance obtained by instantiating that declaration at
`(Int, Int)`: a plain `PySMTType` with basename `"Array"`, which compares
`==`-equal to the `_ArrayType` constant `ARRAY_INT_INT`. -/
def c2_inst : PyType := .custom 8 (some "Array") [.int, .int]

/-- Manager state after additionally instantiating `Array(Int, Int)`. -/
def c2_s2 : MgrState := (get_type_instance c2_decl [.ofType .int, .ofType .int] c2_s1).2

/-- The array sort `m.ArrayType(c2_inst, BOOL)` of the same manager. -/
def c2_A : PyType := .array 9 c2_inst .bool

/-- Manager state after additionally requesting `m.ArrayType(c2_inst, BOOL)`. -/
def c2_s3 : MgrState := (ArrayType c2_inst .bool c2_s2).2

/-- The sort `ArrayType(ARRAY_INT_INT, BOOL)` built by a second manager
(created with the process allocation counter at 100); it is a genuine
`_ArrayType` tree containing no custom instances. -/
def c2_t : PyType := (ArrayType ARRAY_INT_INT .bool (newMgr 100)).1

/-- The function `wrapSort` does not change the state component. -/
theorem wrapSort_snd (p : Except PysmtError PyType × MgrState) :
    (wrapSort p).2 = p.2 := by
  rcases p with ⟨e, s₁⟩; cases e <;> rfl

/-- The operation `get_type_instance` reads and writes only the custom-instance cache;
the declaration registry comes back unchanged on every path. -/
theorem get_type_instance_decls_eq (td : TypeDecl) (args : List PyArg)
    (s : MgrState) :
    (get_type_instance td args s).2.mgr.custom_types_decl
      = s.mgr.custom_types_decl := by
  unfold get_type_instance
  split
  · split <;> rfl
  · rfl

/-- A freshly registered name is found by `lookupDecl`. -/
theorem lookupDecl_cons_self (rest : List (Option String × TypeDecl))
    (name : Option String) (td : TypeDecl) :
    lookupDecl ((name, td) :: rest) name = some td := by
  simp [lookupDecl]

/-- If `TypeManager.Type(name, a)` succeeds, the post-state has a
declaration registered under `name` whose arity is `a` (either the
pre-existing one, whose arity was checked, or the freshly created one). -/
theorem Type'_ok_lookup (s : MgrState) (name : Option String) (a : Nat)
    (hok : ∃ r, (Type' name a s).1 = Except.ok r) :
    ∃ td, lookupDecl (Type' name a s).2.mgr.custom_types_decl name = some td ∧
      td.arity = a := by
  unfold Type' at *
  rcases hl : lookupDecl s.mgr.custom_types_decl name with _ | td
  all_goals simp only [hl] at hok ⊢
  · by_cases ha : a = 0
    · subst ha
      rw [if_pos rfl, wrapSort_snd, get_type_instance_decls_eq]
      exact ⟨⟨s.next, name, 0⟩, lookupDecl_cons_self _ _ _, rfl⟩
    · rw [if_neg ha]
      exact ⟨⟨s.next, name, a⟩, lookupDecl_cons_self _ _ _, rfl⟩
  · by_cases harity : td.arity = a
    · rw [if_pos harity]
      by_cases h0 : td.arity = 0
      · rw [if_pos h0, wrapSort_snd, get_type_instance_decls_eq]
        exact ⟨td, hl, harity⟩
      · rw [if_neg h0]
        exact ⟨td, hl, harity⟩
    · simp only [if_neg harity] at hok
      obtain ⟨r, hr⟩ := hok
      simp at hr

/-- Calling `TypeManager.Type` on a name whose registered declaration has a
different arity raises the arity-conflict error and leaves the state
untouched. -/
theorem Type'_conflict (s : MgrState) (name : Option String) (a2 : Nat)
    (td : TypeDecl) (hlk : lookupDecl s.mgr.custom_types_decl name = some td)
    (hne : ¬ td.arity = a2) :
    Type' name a2 s = (.error (.arityConflict name td.arity), s) := by
  unfold Type'
  simp only [hlk, if_neg hne]

/-- C1: the claim states that `m.normalize(t)` succeeds and returns a sort
for every finite sort tree built from canonical instances, including
custom sorts of any arity.  The code violates it: on a fresh manager,
after `d = m.Type("S", 1)` and `c = m.get_type_instance(d, INT)`,
`m.normalize(c)` raises `PysmtValueError` — the custom branch of the
worklist loop passes the generator of converted arguments to
`get_type_instance` as one non-type argument (and consults the traversal
root `type_` instead of the current node `ty`). -/
theorem normalize_fails_on_custom_sort_of_positive_arity :
    (Type' (some "S") 1 freshMgr).1 = .ok (.decl c1_decl) ∧
    (get_type_instance c1_decl [.ofType .int] c1_s1).1 = .ok c1_inst ∧
    normalize' c1_inst c1_s2 = (.error (.nonTypeArgs (some "S")), c1_s2) :=
  ⟨rfl, rfl, rfl⟩

/-- C2: the claim states that `m.normalize(m.normalize(t))` returns the
same instance as `m.normalize(t)` whenever the latter is defined.  The
code violates it: on a manager holding the declaration `"Array"`/2, its
instance `c2_inst = Array(Int, Int)` (a custom sort that compares
`==`-equal to the array constant `ARRAY_INT_INT`) and the array sort
`c2_A = ArrayType(c2_inst, BOOL)`, normalizing the pure array tree
`c2_t = ArrayType(ARRAY_INT_INT, BOOL)` (built by a second manager)
succeeds and returns `c2_A` — the final cache lookup hits the entry keyed
`(c2_inst, BOOL)` — but normalizing `c2_A` itself reaches the custom
branch of the loop on `c2_inst` and raises `PysmtValueError`. -/
theorem normalize_not_idempotent_on_array_named_custom :
    (Type' (some "Array") 2 freshMgr).1 = .ok (.decl c2_decl) ∧
    (get_type_instance c2_decl [.ofType .int, .ofType .int] c2_s1).1 = .ok c2_inst ∧
    (ArrayType c2_inst .bool c2_s2).1 = c2_A ∧
    c2_t = .array 100 ARRAY_INT_INT .bool ∧
    normalize' c2_t c2_s3 = (.ok c2_A, c2_s3) ∧
    (normalize' c2_A c2_s3).1 = .error (.nonTypeArgs (some "Array")) :=
  ⟨rfl, rfl, rfl, rfl, rfl, rfl⟩

/-- C3: `m.FunctionType(R, [])` with an empty parameter sequence returns
`R` itself — the identical instance, not a fresh Function sort — for
every sort `R` and every manager state. -/
theorem FunctionType_empty_params_returns_return_type
    (R : PyType) (s : MgrState) : (FunctionType R [] s).1 = R := rfl

/-- C4: after a successful `m.Type(name, a1)`, a later `m.Type(name, a2)`
with `a2 ≠ a1` fails with the arity-conflict error and changes nothing:
the state comes back exactly as it was, and the declaration registered
under `name` still has arity `a1`. -/
theorem Type_redeclare_different_arity_fails (s : MgrState)
    (name : Option String) (a1 a2 : Nat) (hne : a1 ≠ a2)
    (hok : ∃ r, (Type' name a1 s).1 = Except.ok r) :
    ∃ td, lookupDecl (Type' name a1 s).2.mgr.custom_types_decl name = some td ∧
      td.arity = a1 ∧
      Type' name a2 (Type' name a1 s).2
        = (.error (.arityConflict name a1), (Type' name a1 s).2) := by
  obtain ⟨td, hlk, ha⟩ := Type'_ok_lookup s name a1 hok
  refine ⟨td, hlk, ha, ?_⟩
  have h := Type'_conflict (Type' name a1 s).2 name a2 td hlk (by rw [ha]; exact hne)
  rw [ha] at h
  exact h

/-- Witness for C4 at a concrete input: on a fresh manager,
`m.Type("Foo", 1)` succeeds, and `m.Type("Foo", 2)` then fails with the
arity-conflict error while `"Foo"` stays registered with arity 1. -/
theorem Type_redeclare_different_arity_fails_witness :
    (1 : Nat) ≠ 2 ∧
    ∃ td, lookupDecl (Type' (some "Foo") 1 freshMgr).2.mgr.custom_types_decl
        (some "Foo") = some td ∧
      td.arity = 1 ∧
      Type' (some "Foo") 2 (Type' (some "Foo") 1 freshMgr).2
        = (.error (.arityConflict (some "Foo") 1), (Type' (some "Foo") 1 freshMgr).2) :=
  ⟨by decide,
   Type_redeclare_different_arity_fails freshMgr (some "Foo") 1 2 (by decide)
     ⟨.decl ⟨7, some "Foo", 1⟩, rfl⟩⟩

/-- C5: `m.get_type_instance(decl, args)` with at least one argument that
is not a sort value fails with the invalid-argument error and leaves the
state — in particular the custom-instance cache — exactly as it was. -/
theorem get_type_instance_nontype_arg_fails (s : MgrState) (td : TypeDecl)
    (args : List PyArg) (h : ∃ a ∈ args, isTypeInst a = false) :
    get_type_instance td args s = (.error (.nonTypeArgs td.name), s) ∧
    (get_type_instance td args s).2.mgr.custom_types = s.mgr.custom_types := by
  obtain ⟨a, ha, hfa⟩ := h
  have hall : ¬ (args.all isTypeInst = true) := by
    intro hx
    have := List.all_eq_true.mp hx a ha
    rw [hfa] at this
    cases this
  have h1 : get_type_instance td args s = (.error (.nonTypeArgs td.name), s) := by
    unfold get_type_instance
    rw [if_neg hall]
  exact ⟨h1, by rw [h1]⟩

/-- Witness for C5 at a concrete input: instantiating a declaration with
a single non-type argument on a fresh manager fails and preserves the
custom-instance cache. -/
theorem get_type_instance_nontype_arg_fails_witness :
    (∃ a ∈ [PyArg.nonType []], isTypeInst a = false) ∧
    get_type_instance ⟨0, some "D", 1⟩ [PyArg.nonType []] freshMgr
      = (.error (.nonTypeArgs (some "D")), freshMgr) ∧
    (get_type_instance ⟨0, some "D", 1⟩ [PyArg.nonType []] freshMgr).2.mgr.custom_types
      = freshMgr.mgr.custom_types :=
  ⟨⟨.nonType [], by simp, rfl⟩,
   (get_type_instance_nontype_arg_fails freshMgr ⟨0, some "D", 1⟩ [PyArg.nonType []]
     ⟨.nonType [], by simp, rfl⟩).1,
   (get_type_instance_nontype_arg_fails freshMgr ⟨0, some "D", 1⟩ [PyArg.nonType []]
     ⟨.nonType [], by simp, rfl⟩).2⟩

/-- C6: two calls `m.BVType(w)` return the identical instance — the
second call returns exactly the value the first call created or found,
for every width and every manager state. -/
theorem BVType_two_calls_return_identical_instance (w : Nat) (s : MgrState) :
    (BVType w (BVType w s).2).1 = (BVType w s).1 := by
  unfold BVType
  rcases h : lookupBVCache s.mgr.bv_types w with _ | ty
  · have h2 : lookupBVCache ((w, PyType.bv s.next w) :: s.mgr.bv_types) w
        = some (PyType.bv s.next w) := by
      unfold lookupBVCache
      rw [if_pos rfl]
    simp only [h, h2]
  · simp only [h]

/-- C7: two BitVector sorts of the same width compare `==`-equal and hash
equal regardless of how each was constructed (the object ids `id1`, `id2`
— the only per-instance metadata — are arbitrary), and two BitVector
sorts of different widths compare unequal. -/
theorem bv_sorts_compare_and_hash_by_width_only (id1 id2 w w' : Nat) :
    (pyEq (.bv id1 w) (.bv id2 w) = true ∧
     pyHash (.bv id1 w) = pyHash (.bv id2 w)) ∧
    (w ≠ w' → pyEq (.bv id1 w) (.bv id2 w') = false) := by
  refine ⟨⟨?_, rfl⟩, fun hne => ?_⟩
  · simp [pyEq]
  · simp [pyEq]
    exact hne

/-- Witness for C7 at concrete inputs: two differently-constructed
BitVector sorts of width 8 are equal with equal hashes, and width 8
differs from width 16. -/
theorem bv_sorts_compare_and_hash_by_width_only_witness :
    (pyEq (.bv 0 8) (.bv 1 8) = true ∧ pyHash (.bv 0 8) = pyHash (.bv 1 8)) ∧
    ((8 : Nat) ≠ 16 ∧ pyEq (.bv 0 8) (.bv 1 16) = false) :=
  ⟨(bv_sorts_compare_and_hash_by_width_only 0 1 8 16).1,
   by decide,
   (bv_sorts_compare_and_hash_by_width_only 0 1 8 16).2 (by decide)⟩

/-- The function `wrapSort` maps the result component through `TypeResult.sort`. -/
theorem wrapSort_fst (p : Except PysmtError PyType × MgrState) :
    (wrapSort p).1 = p.1.map TypeResult.sort := by
  rcases p with ⟨e, s₁⟩; cases e <;> rfl

/-- The result of `get_type_instance(td)` with no arguments on a cache
miss: a fresh argument-less custom instance. -/
theorem get_type_instance_nil_miss_fst (td : TypeDecl) (s : MgrState)
    (hmiss : lookupCustomCache s.mgr.custom_types (td.id, []) = none) :
    (get_type_instance td [] s).1 = .ok (PyType.custom s.next td.name []) := by
  unfold get_type_instance
  simp [argTypes, hmiss]

/-- C8: `m.Type(name, 0)` for a fresh name returns the instantiated
Custom sort value (the freshly allocated argument-less instance), not the
declaration object.  The second hypothesis — no stray custom-cache entry
keyed by the about-to-be-allocated declaration id — holds in every state
a real manager can reach, since cache keys only ever use ids of existing
declarations. -/
theorem Type_arity_zero_returns_custom_sort_value (s : MgrState)
    (name : Option String)
    (hfresh : lookupDecl s.mgr.custom_types_decl name = none)
    (hmiss : lookupCustomCache s.mgr.custom_types (s.next, []) = none) :
    (Type' name 0 s).1 = .ok (.sort (.custom (s.next + 1) name [])) := by
  unfold Type'
  simp only [hfresh, if_true]
  rw [wrapSort_fst, get_type_instance_nil_miss_fst]
  · rfl
  · exact hmiss

/-- Witness for C8 at a concrete input: declaring `"Foo"` with arity 0 on
a fresh manager returns the custom sort instance with allocation id 8. -/
theorem Type_arity_zero_returns_custom_sort_value_witness :
    lookupDecl freshMgr.mgr.custom_types_decl (some "Foo") = none ∧
    lookupCustomCache freshMgr.mgr.custom_types (freshMgr.next, []) = none ∧
    (Type' (some "Foo") 0 freshMgr).1 = .ok (.sort (.custom 8 (some "Foo") [])) :=
  ⟨rfl, rfl, Type_arity_zero_returns_custom_sort_value freshMgr (some "Foo") rfl rfl⟩

/-- C9: the function sort with return sort Bool and parameters
`[Int, Real]` renders in SMT-LIB sort syntax as `"(Int Real) Bool"` with
the declaration-style flag set and as `"Int -> Real -> Bool"` with it
cleared, whatever its allocation id; the last conjunct checks it is
exactly the shape `m.FunctionType(BOOL, [INT, REAL])` builds on a fresh
manager. -/
theorem FunctionType_bool_int_real_rendering (i : Nat) :
    as_smtlib (.fn i .bool [.int, .real]) true = "(Int Real) Bool" ∧
    as_smtlib (.fn i .bool [.int, .real]) false = "Int -> Real -> Bool" ∧
    (FunctionType .bool [.int, .real] freshMgr).1 = .fn 7 .bool [.int, .real] :=
  ⟨rfl, rfl, rfl⟩

/-- C10: the degenerate call `m.FunctionType(R, [])` returns before
touching the manager: all five cache tables — bit-vector, function,
array, custom-instance and declaration registries — come back unchanged,
for every sort `R` and every manager state. -/
theorem FunctionType_empty_params_leaves_all_caches_unchanged
    (R : PyType) (s : MgrState) :
    (FunctionType R [] s).2.mgr.bv_types = s.mgr.bv_types ∧
    (FunctionType R [] s).2.mgr.function_types = s.mgr.function_types ∧
    (FunctionType R [] s).2.mgr.array_types = s.mgr.array_types ∧
    (FunctionType R [] s).2.mgr.custom_types = s.mgr.custom_types ∧
    (FunctionType R [] s).2.mgr.custom_types_decl = s.mgr.custom_types_decl :=
  ⟨rfl, rfl, rfl, rfl, rfl⟩
